import Mathlib

/-!
Shallow embedding of the TwilioServiceCenter relay core (src/relay/):
the Ledger (BillingService.deduct_balance), the Router
(RouterService.get_account_for_number over RoutingRule rows), the five
routed HTTP send views, the auth middleware with its key-validation
cache, the delivery-status webhook, and the reconciliation sweep
(LogService.sync_status_from_twilio driven by the sync_status command).
Monetary amounts are integers scaled by 10^4 (the DecimalField has four
decimal places), so the SMS rate 0.0075 is 75.
-/

/-- An upstream carrier account (models.TwilioAccount): primary key `sid`,
an optional default sender number (blank string when unset). The encrypted
token and its decryption are folded into the abstract dispatch
collaborator. -/
structure Account where
  sid : String
  phone_number : String
  deriving DecidableEq

/-- Regular-expression abstract syntax for RoutingRule.pattern. -/
inductive RE where
  | emp
  | eps
  | ch (c : Char)
  | any
  | seq (a b : RE)
  | alt (a b : RE)
  | star (a : RE)
  deriving DecidableEq

/-- Does the expression accept the empty string? -/
def nullable : RE → Bool
  | .emp => false
  | .eps => true
  | .ch _ => false
  | .any => false
  | .seq a b => nullable a && nullable b
  | .alt a b => nullable a || nullable b
  | .star _ => true

/-- Brzozowski derivative of an expression by one character. -/
def reDeriv : RE → Char → RE
  | .emp, _ => .emp
  | .eps, _ => .emp
  | .ch c, x => if x = c then .eps else .emp
  | .any, _ => .eps
  | .seq a b, x => if nullable a then .alt (.seq (reDeriv a x) b) (reDeriv b x) else .seq (reDeriv a x) b
  | .alt a b, x => .alt (reDeriv a x) (reDeriv b x)
  | .star a, x => .seq (reDeriv a x) (.star a)

/-- Does the expression accept some leading segment of the character list?
This is Python's `re.match` truthiness: the match is anchored at the start
of the string and may cover any leading portion of it. -/
def matchAtStart : RE → List Char → Bool
  | r, [] => nullable r
  | r, c :: cs => nullable r || matchAtStart (reDeriv r c) cs

/-- Truthiness of `re.match(pattern, to_number)` on a string. -/
def reMatch (r : RE) (s : String) : Bool :=
  matchAtStart r s.data

/-- A routing rule row (models.RoutingRule): integer priority, pattern,
and the related carrier account. -/
structure RoutingRule where
  priority : Int
  pattern : RE
  account : Account
  deriving DecidableEq

/-- Insert a rule into a list sorted ascending by priority, before any
rule of equal priority already present later in the scan. -/
def insertRule (r : RoutingRule) : List RoutingRule → List RoutingRule
  | [] => [r]
  | x :: xs => if x.priority < r.priority then x :: insertRule r xs else r :: x :: xs

/-- The default queryset ordering of RoutingRule (Meta.ordering =
['priority']): a stable ascending sort by priority. -/
def sortRules : List RoutingRule → List RoutingRule
  | [] => []
  | r :: rs => insertRule r (sortRules rs)

/-- The resolved identity attached to a request by the middleware
(models.APIKey / the middleware's KeyStruct): capability flags and the
optional forced carrier account. -/
structure KeyCtx where
  id : Nat
  allow_sms : Bool
  allow_voice : Bool
  allow_whatsapp : Bool
  forced_account : Option Account
  deriving DecidableEq

/-- The rule-scan loop of RouterService.get_account_for_number: the
account of the first rule (in the given order) whose pattern matches the
destination number. -/
def scanRules : List RoutingRule → String → Option Account
  | [], _ => none
  | r :: rs, t => if reMatch r.pattern t then some r.account else scanRules rs t

/-- RouterService.get_account_for_number (src/relay/services.py:24-32):
a forced account on the presented key wins unconditionally; otherwise the
rules are fetched in ascending priority order and the first match's
account is returned; `none` when nothing matches. -/
def get_account_for_number (rules : List RoutingRule) (to_number : String)
    (api_key : Option KeyCtx) : Option Account :=
  match api_key with
  | some k =>
    match k.forced_account with
    | some a => some a
    | none => scanRules (sortRules rules) to_number
  | none => scanRules (sortRules rules) to_number

/-- Tenant balances, indexed by client id (Client.balance, scaled by 10^4). -/
abbrev Ledger := Nat → Int

/-- BillingService.deduct_balance (src/relay/services.py:13-21): inside a
row lock, compare the balance against the amount; on success persist the
decrement and return (True, new balance); otherwise mutate nothing and
return (False, unchanged balance). -/
def deduct_balance (l : Ledger) (client_id : Nat) (amount : Int) : Bool × Int × Ledger :=
  if amount ≤ l client_id then
    (true, l client_id - amount, fun j => if j = client_id then l client_id - amount else l j)
  else
    (false, l client_id, l)

/-- A CommunicationLog row (models.CommunicationLog). `created_at` is a
Unix timestamp in seconds. -/
structure CommLog where
  client_id : Option Nat
  api_key_id : Option Nat
  account : Option Account
  communication_type : String
  to_number : String
  from_number : String
  body : String
  twilio_sid : String
  status : String
  cost : Int
  error_message : String
  created_at : Int
  deriving DecidableEq

/-- LogService.log_communication (src/relay/services.py:38-60): build the
CommunicationLog row that would be persisted. -/
def log_communication (client_id api_key_id : Option Nat) (account : Option Account)
    (comm_type to_num from_num body twilio_sid stat : String) (cost : Int)
    (error : String) (created_at : Int) : CommLog :=
  { client_id := client_id, api_key_id := api_key_id, account := account,
    communication_type := comm_type, to_number := to_num, from_number := from_num,
    body := body, twilio_sid := twilio_sid, status := stat, cost := cost,
    error_message := error, created_at := created_at }

/-- LogService.update_log_status (src/relay/services.py:62-72): find the
row with the given carrier identifier, overwrite its status, and set the
error text only when one is supplied (truthy). Rows are left untouched
when no identifier matches. -/
def update_log_status (db : List CommLog) (twilio_sid stat err : String) : List CommLog :=
  match db with
  | [] => []
  | l :: ls =>
    if l.twilio_sid = twilio_sid then
      { l with status := stat,
               error_message := if err ≠ "" then err else l.error_message } :: ls
    else
      l :: update_log_status ls twilio_sid stat err

/-- An HTTP JSON response, reduced to the fields the relay code sets. -/
structure Resp where
  code : Nat
  error : Option String := none
  sid : Option String := none
  status : Option String := none
  cost : Option Int := none
  deriving DecidableEq

/-- WebhookView.post (src/relay/views.py:436-442): print the payload and
answer `{'status': 'received'}`; the stored rows are not touched. -/
def webhook_post (db : List CommLog) (_payload : List (String × String)) :
    Resp × List CommLog :=
  ({ code := 200, status := some "received" }, db)

/-- The outcome of one call to the external Carrier Gateway: a fetched or
created resource, a TwilioRestException with an HTTP status, or any other
exception (including a decryption failure or timeout). -/
inductive FetchResult where
  | res (stat : String) (error_code : Option Nat) (error_message : Option String)
      (price : Option Int)
  | restErr (httpStatus : Nat)
  | exn
  deriving DecidableEq

/-- The `Error {code}[: {message}]` text composed by sync_status_from_twilio. -/
def errorText (c : Nat) (em : Option String) : String :=
  "Error " ++ toString c ++
    (match em with
     | some m => if m ≠ "" then ": " ++ m else ""
     | none => "")

/-- The field updates applied to a log row from a fetched carrier resource
(src/relay/services.py:90-102): status always overwritten; error text only
for a truthy error code; cost only for a truthy price (absolute value). -/
def applyResource (log : CommLog) (st : String) (ec : Option Nat)
    (em : Option String) (pr : Option Int) : CommLog :=
  let l1 := { log with status := st }
  let l2 := match ec with
    | some c => if c ≠ 0 then { l1 with error_message := errorText c em } else l1
    | none => l1
  match pr with
  | some p => if p ≠ 0 then { l2 with cost := if p < 0 then -p else p } else l2
  | none => l2

/-- LogService.sync_status_from_twilio (src/relay/services.py:74-115).
`fetch kind sid` stands for the whole guarded carrier interaction
(decryption + messages/calls fetch). Returns (saved?, row after the call):
no identifier or no account → untouched; fetched resource → fields
overwritten, True; a 404 TwilioRestException → terminal not_found, False;
any other exception → untouched, False. -/
def sync_status_from_twilio (fetch : String → String → FetchResult)
    (log : CommLog) : Bool × CommLog :=
  if log.twilio_sid = "" then (false, log)
  else
    match log.account with
    | none => (false, log)
    | some _ =>
      if log.communication_type = "sms" || log.communication_type = "whatsapp"
          || log.communication_type = "call" then
        match fetch log.communication_type log.twilio_sid with
        | .res st ec em pr => (true, applyResource log st ec em pr)
        | .restErr code =>
          if code = 404 then
            (false, { log with status := "not_found",
                               error_message := "Resource not found in Twilio" })
          else (false, log)
        | .exn => (false, log)
      else (false, log)

/-- The non-terminal statuses the sync_status command sweeps
(src/relay/management/commands/sync_status.py:13). -/
def nonFinalStatuses : List String :=
  ["pending", "queued", "sending", "sent", "initiated", "ringing"]

/-- The queryset filter of the sync_status command: created in the last 7
days, non-terminal status, non-empty carrier identifier. -/
def sweepEligible (now : Int) (log : CommLog) : Bool :=
  decide (now - 7 * 86400 ≤ log.created_at)
    && nonFinalStatuses.contains log.status
    && !(log.twilio_sid == "")

/-- Command.handle of sync_status (src/relay/management/commands/
sync_status.py:10-34): every eligible row is synced independently, each
inside its own try/except, so one row's failure leaves every other row's
processing as it would have been. -/
def sweep_sync_status (fetch : String → String → FetchResult) (now : Int)
    (logs : List CommLog) : List CommLog :=
  logs.map (fun log =>
    if sweepEligible now log then (sync_status_from_twilio fetch log).2 else log)

/-- The arguments handed to the Carrier Gateway by a view's create call. -/
structure DispatchCall where
  account : Account
  isCall : Bool
  toNumber : String
  fromNumber : Option String
  body : Option String
  mediaUrl : Option String
  twiml : Option String
  url : Option String
  deriving DecidableEq

/-- What the Carrier Gateway create call produced: a resource with a sid
and status, or a raised exception message. -/
inductive DispatchResult where
  | ok (sid : String) (stat : String)
  | err (msg : String)
  deriving DecidableEq

/-- The mutable world a request sees: tenant balances, routing rules and
the CommunicationLog table. -/
structure Env where
  ledger : Ledger
  rules : List RoutingRule
  logs : List CommLog

/-- The five routed send endpoints (src/relay/urls.py:12-21): the three
simplified APIs and the two Twilio-compatible ones. SendSMSView exists in
views.py but is bound to no URL. -/
inductive Endpoint where
  | stdSMS
  | stdWhatsApp
  | stdCall
  | twMessages
  | twCalls
  deriving DecidableEq

/-- A request body, field absent = `none`. -/
structure Req where
  toNumber : Option String := none
  body : Option String := none
  fromNumber : Option String := none
  twiml : Option String := none
  url : Option String := none
  mediaUrl : Option String := none
  deriving DecidableEq

/-- A DRF CharField that is required: present and non-blank. -/
def presentNonempty : Option String → Bool
  | some s => s ≠ ""
  | none => false

/-- A DRF CharField that is optional: absent, or present and non-blank. -/
def okIfAbsent : Option String → Bool
  | some s => s ≠ ""
  | none => true

/-- Per-endpoint request validation: the serializer checks of the three
simplified views (SMSSerializer, WhatsAppSerializer, CallSerializer) and
the hand-rolled truthiness checks of the two Twilio-compatible views. -/
def validReq : Endpoint → Req → Bool
  | .stdSMS, r => presentNonempty r.toNumber && presentNonempty r.body && okIfAbsent r.fromNumber
  | .stdWhatsApp, r => presentNonempty r.toNumber && presentNonempty r.body
      && okIfAbsent r.fromNumber && okIfAbsent r.mediaUrl
  | .stdCall, r => presentNonempty r.toNumber && okIfAbsent r.fromNumber
      && okIfAbsent r.twiml && okIfAbsent r.url
      && (presentNonempty r.twiml || presentNonempty r.url)
  | .twMessages, r => !(r.toNumber.getD "" == "")
  | .twCalls, r => !(r.toNumber.getD "" == "")
      && (!(r.twiml.getD "" == "") || !(r.url.getD "" == ""))

/-- The flat per-kind estimated cost, scaled by 10^4 (0.0075 / 0.0050 /
0.015). -/
def costOf : Endpoint → Int
  | .stdSMS => 75
  | .stdWhatsApp => 50
  | .stdCall => 150
  | .twMessages => 75
  | .twCalls => 150

/-- The capability gate of each view: the three simplified views check the
matching allow flag; the two Twilio-compatible views perform no check. -/
def capOK : Endpoint → KeyCtx → Bool
  | .stdSMS, k => k.allow_sms
  | .stdWhatsApp, k => k.allow_whatsapp
  | .stdCall, k => k.allow_voice
  | .twMessages, _ => true
  | .twCalls, _ => true

/-- The 403 error text of each simplified view. -/
def capErrorText : Endpoint → String
  | .stdSMS => "SMS capability disabled for this API Key"
  | .stdWhatsApp => "WhatsApp capability disabled for this API Key"
  | .stdCall => "Voice capability disabled for this API Key"
  | .twMessages => ""
  | .twCalls => ""

/-- Which views demand the middleware-set attributes: the simplified views
require both client_id and api_key; the Twilio-compatible views read only
client_id. -/
def authOK : Endpoint → Option Nat → Option KeyCtx → Bool
  | .twMessages, c, _ => c.isSome
  | .twCalls, c, _ => c.isSome
  | _, c, k => c.isSome && k.isSome

/-- The routing call of each view: the simplified views pass the request's
api_key (WhatsApp first strips every 'whatsapp:' occurrence from To); the
Twilio-compatible views call get_account_for_number without an api_key. -/
def routeLookup : Endpoint → List RoutingRule → KeyCtx → Req → Option Account
  | .stdSMS, rules, k, r => get_account_for_number rules (r.toNumber.getD "") (some k)
  | .stdWhatsApp, rules, k, r =>
      get_account_for_number rules ((r.toNumber.getD "").replace "whatsapp:" "") (some k)
  | .stdCall, rules, k, r => get_account_for_number rules (r.toNumber.getD "") (some k)
  | .twMessages, rules, _, r => get_account_for_number rules (r.toNumber.getD "") none
  | .twCalls, rules, _, r => get_account_for_number rules (r.toNumber.getD "") none

/-- Fallback of the sender number: `if not from_number and
account.phone_number: from_number = account.phone_number`. -/
def defaultFrom (f : Option String) (acct : Account) : Option String :=
  if f.getD "" = "" then
    (if acct.phone_number = "" then f else some acct.phone_number)
  else f

/-- Add the 'whatsapp:' scheme to To when absent. -/
def waPrefixTo (t : String) : String :=
  if t.startsWith "whatsapp:" then t else "whatsapp:" ++ t

/-- Add the 'whatsapp:' scheme to a truthy From when absent. -/
def waPrefixFrom : Option String → Option String
  | some s => if s ≠ "" && !s.startsWith "whatsapp:" then some ("whatsapp:" ++ s) else some s
  | none => none

/-- The create-call arguments each view assembles before dispatching. -/
def dispatchArgs : Endpoint → Req → Account → DispatchCall
  | .stdSMS, r, acct =>
    { account := acct, isCall := false, toNumber := r.toNumber.getD "",
      fromNumber := defaultFrom r.fromNumber acct, body := r.body,
      mediaUrl := none, twiml := none, url := none }
  | .stdWhatsApp, r, acct =>
    let f := waPrefixFrom (defaultFrom r.fromNumber acct)
    { account := acct, isCall := false, toNumber := waPrefixTo (r.toNumber.getD ""),
      fromNumber := if f.getD "" = "" then none else f, body := r.body,
      mediaUrl := r.mediaUrl, twiml := none, url := none }
  | .stdCall, r, acct =>
    { account := acct, isCall := true, toNumber := r.toNumber.getD "",
      fromNumber := defaultFrom r.fromNumber acct, body := none,
      mediaUrl := none, twiml := r.twiml, url := r.url }
  | .twMessages, r, acct =>
    { account := acct, isCall := false, toNumber := r.toNumber.getD "",
      fromNumber := r.fromNumber, body := r.body,
      mediaUrl := r.mediaUrl, twiml := none, url := none }
  | .twCalls, r, acct =>
    { account := acct, isCall := true, toNumber := r.toNumber.getD "",
      fromNumber := r.fromNumber, body := none, mediaUrl := none,
      twiml := if r.twiml.getD "" = "" then none else r.twiml,
      url := if r.url.getD "" = "" then none else r.url }

/-- The success response of each view: the simplified views answer 200
with a hard-coded status string; the Twilio-compatible views answer 201
echoing the resource's own status. -/
def successResp : Endpoint → String → String → Int → Resp
  | .stdSMS, sid, _, c => { code := 200, status := some "sent", sid := some sid, cost := some c }
  | .stdWhatsApp, sid, _, c => { code := 200, status := some "sent", sid := some sid, cost := some c }
  | .stdCall, sid, _, c => { code := 200, status := some "initiated", sid := some sid, cost := some c }
  | .twMessages, sid, st, c => { code := 201, status := some st, sid := some sid, cost := some c }
  | .twCalls, sid, st, c => { code := 201, status := some st, sid := some sid, cost := some c }

/-- The 402 error text (TwilioMessagesView uses the Twilio 20003 wording). -/
def insufficientError : Endpoint → String
  | .twMessages => "Permission Denied - Insufficient Funds"
  | _ => "Insufficient Funds"

/-- The shared post skeleton of the five routed send views
(src/relay/views.py:65-434): auth attributes → capability gate →
validation → debit → route (refund + 503 on none) → dispatch (refund +
500 on exception; success response otherwise). No view writes a
CommunicationLog row. -/
def relayPost (ep : Endpoint) (env : Env) (client_id : Option Nat)
    (api_key : Option KeyCtx) (req : Req)
    (dispatch : DispatchCall → DispatchResult) : Resp × Env :=
  if !authOK ep client_id api_key then
    ({ code := 401, error := some "Unauthorized" }, env)
  else
    let cid := client_id.getD 0
    let k := api_key.getD ⟨0, false, false, false, none⟩
    if !capOK ep k then
      ({ code := 403, error := some (capErrorText ep) }, env)
    else if !validReq ep req then
      ({ code := 400, error := some "Bad Request" }, env)
    else
      let cost := costOf ep
      let d := deduct_balance env.ledger cid cost
      if !d.1 then
        ({ code := 402, error := some (insufficientError ep) }, env)
      else
        let env1 : Env := { env with ledger := d.2.2 }
        match routeLookup ep env.rules k req with
        | none =>
          ({ code := 503, error := some "No Route Found" },
           { env1 with ledger := (deduct_balance env1.ledger cid (-cost)).2.2 })
        | some acct =>
          match dispatch (dispatchArgs ep req acct) with
          | .ok sid st => (successResp ep sid st cost, env1)
          | .err e =>
            ({ code := 500, error := some e },
             { env1 with ledger := (deduct_balance env1.ledger cid (-cost)).2.2 })

/-- Python str.startswith, evaluated on the character lists. -/
def pyStartsWith (s p : String) : Bool :=
  p.data.isPrefixOf s.data

/-- The payload the auth middleware caches for a validated key
(src/relay/middleware.py:65-74). -/
structure CacheVal where
  id : Nat
  client_id : Nat
  allow_sms : Bool
  allow_voice : Bool
  allow_whatsapp : Bool
  forced_account_obj : Option Account
  deriving DecidableEq

/-- One entry of the Django cache: key, value, absolute expiry time. -/
structure CacheEntry where
  key : String
  val : CacheVal
  expiry : Int
  deriving DecidableEq

abbrev AuthCache := List CacheEntry

/-- cache.get: the most recent live entry under the key; an entry set at
time t with timeout 300 is visible while now < t + 300. -/
def cacheGet (now : Int) (c : AuthCache) (k : String) : Option CacheVal :=
  (c.find? (fun e => e.key == k && decide (now < e.expiry))).map CacheEntry.val

/-- An APIKey row of the credential store (models.APIKey). -/
structure APIKeyRow where
  id : Nat
  client_id : Nat
  key_hash : String
  is_active : Bool
  allow_sms : Bool
  allow_voice : Bool
  allow_whatsapp : Bool
  forced_account : Option Account
  deriving DecidableEq

/-- AuthService.validate_api_key (src/relay/services.py:126-135): hash the
presented secret and look up an active key row by digest. -/
def validate_api_key (digest : String → String) (db : List APIKeyRow)
    (key_value : String) : Option APIKeyRow :=
  db.find? (fun k => k.key_hash == digest key_value && k.is_active)

/-- The cache payload built from a validated key row. -/
def toCacheVal (k : APIKeyRow) : CacheVal :=
  ⟨k.id, k.client_id, k.allow_sms, k.allow_voice, k.allow_whatsapp, k.forced_account⟩

/-- What RelayAuthMiddleware.process_view decides for a request. -/
inductive AuthOutcome where
  | passthrough
  | reject (code : Nat) (msg : String)
  | authed (client_id : Nat) (key : CacheVal)
  deriving DecidableEq

/-- The observable result of one middleware run: the decision, the cache
afterwards, and whether the credential store was consulted. -/
structure AuthStep where
  outcome : AuthOutcome
  cache : AuthCache
  dbConsulted : Bool
  deriving DecidableEq

/-- RelayAuthMiddleware.process_view (src/relay/middleware.py:7-82):
guarded paths only (health exempt); 401 on a missing header; cache lookup
under the key `auth:` + sha256(header) — a hit resolves the identity with
no store access; a miss falls through to the credential store and, on
success, populates the cache with a 300-second timeout. -/
def process_view (digest : String → String) (now : Int) (cache : AuthCache)
    (db : List APIKeyRow) (path : String) (auth_header : Option String) : AuthStep :=
  if !(pyStartsWith path "/relay/" || pyStartsWith path "/2010-04-01/") then
    ⟨.passthrough, cache, false⟩
  else if path == "/relay/api/health" then
    ⟨.passthrough, cache, false⟩
  else if auth_header.getD "" == "" then
    ⟨.reject 401 "Missing Authorization Header", cache, false⟩
  else
    let h := auth_header.getD ""
    let ck := "auth:" ++ digest h
    match cacheGet now cache ck with
    | some v => ⟨.authed v.client_id v, cache, false⟩
    | none =>
      match validate_api_key digest db h with
      | some k =>
        ⟨.authed k.client_id (toCacheVal k), ⟨ck, toCacheVal k, now + 300⟩ :: cache, true⟩
      | none => ⟨.reject 401 "Invalid API Key", cache, true⟩

/-! Concrete values used to instantiate the theorems below. -/

/-- A carrier account with a default sender number. -/
def accA : Account := ⟨"ACA", "+15550001111"⟩

/-- A carrier account without a default sender number. -/
def accB : Account := ⟨"ACB", ""⟩

/-- The pattern `^\+1.*`. -/
def patPlusOne : RE := .seq (.ch '+') (.seq (.ch '1') (.star .any))

/-- The pattern `.*`. -/
def patAll : RE := .star .any

/-- Priority-1 rule: North-American numbers to accA. -/
def rulePlusOne : RoutingRule := ⟨1, patPlusOne, accA⟩

/-- Priority-2 catch-all rule to accB. -/
def ruleAll : RoutingRule := ⟨2, patAll, accB⟩

/-- A key with every capability and no forced account. -/
def keyFree : KeyCtx := ⟨7, true, true, true, none⟩

/-- A key whose SMS capability flag is disabled. -/
def keyNoSMS : KeyCtx := ⟨8, false, true, true, none⟩

/-- A key with a forced carrier account. -/
def keyForced : KeyCtx := ⟨9, true, true, true, some accB⟩

/-- A world with the two rules above and every balance at 0.1000 (1000). -/
def envTwoRules : Env := ⟨fun _ => 1000, [rulePlusOne, ruleAll], []⟩

/-- A world with no routing rules. -/
def envNoRules : Env := ⟨fun _ => 1000, [], []⟩

/-- A plain SMS request body. -/
def reqSMS : Req := { toNumber := some "+15551234567", body := some "hi" }

/-- A Carrier Gateway that accepts everything. -/
def dispatchOK : DispatchCall → DispatchResult := fun _ => .ok "SM123" "queued"

/-- A Carrier Gateway that raises on everything. -/
def dispatchFail : DispatchCall → DispatchResult := fun _ => .err "boom"

/-- A queued SMS log row with a carrier identifier (WebhookTests.setUp). -/
def logQ : CommLog :=
  { client_id := some 1, api_key_id := none, account := some accA,
    communication_type := "sms", to_number := "+1234567890", from_number := "",
    body := "", twilio_sid := "SMtestWebhook", status := "queued", cost := 0,
    error_message := "", created_at := 0 }

/-- A queued row created more than 7 days before the sweep below. -/
def logOld : CommLog := { logQ with twilio_sid := "SMold", created_at := 0 }

/-- A recent queued row whose carrier account reference was nulled. -/
def logNoAcct : CommLog :=
  { logQ with twilio_sid := "SMnoacct", account := none, created_at := 700000 }

/-- A Carrier Gateway whose fetch always reports `delivered`. -/
def fetchDelivered : String → String → FetchResult :=
  fun _ _ => .res "delivered" none none none

/-- A stand-in one-way digest (hashlib.sha256 hexdigest). -/
def dgt : String → String := fun s => s ++ "#sha"

/-- A stored credential row whose hash matches dgt "secret". -/
def keyRowW : APIKeyRow := ⟨1, 42, "secret#sha", true, true, true, true, none⟩

/-- A one-row credential store. -/
def dbW : List APIKeyRow := [keyRowW]

/-! Helper lemmas about the Ledger. -/

theorem deduct_fst (l : Ledger) (cid : Nat) (a : Int) :
    (deduct_balance l cid a).1 = decide (a ≤ l cid) := by
  unfold deduct_balance
  split <;> simp_all

theorem deduct_snd_of_le (l : Ledger) (cid : Nat) (a : Int) (h : a ≤ l cid) :
    (deduct_balance l cid a).2.1 = l cid - a := by
  unfold deduct_balance
  rw [if_pos h]

theorem deduct_apply_of_le (l : Ledger) (cid : Nat) (a : Int) (h : a ≤ l cid) (j : Nat) :
    (deduct_balance l cid a).2.2 j = if j = cid then l cid - a else l j := by
  unfold deduct_balance
  rw [if_pos h]

theorem deduct_ledger_of_lt (l : Ledger) (cid : Nat) (a : Int) (h : l cid < a) :
    (deduct_balance l cid a).2.2 = l := by
  unfold deduct_balance
  rw [if_neg (not_le.mpr h)]

theorem refund_roundtrip (l : Ledger) (cid : Nat) (c : Int) (hc : 0 < c)
    (hb : c ≤ l cid) (j : Nat) :
    (deduct_balance (deduct_balance l cid c).2.2 cid (-c)).2.2 j = l j := by
  have h1 : ∀ i, (deduct_balance l cid c).2.2 i = if i = cid then l cid - c else l i :=
    deduct_apply_of_le l cid c hb
  have h2 : (-c) ≤ (deduct_balance l cid c).2.2 cid := by
    rw [h1 cid]
    simp only [if_pos rfl]
    omega
  rw [deduct_apply_of_le _ cid (-c) h2 j]
  by_cases hj : j = cid
  · subst hj
    rw [if_pos rfl, h1 j, if_pos rfl]
    omega
  · rw [if_neg hj, h1 j, if_neg hj]

/-- C1: for every tenant and non-negative amount, deduct_balance is a
conditional decrement: with sufficient balance it returns ok=true, the new
balance old − amount (still non-negative), persists it, and touches no
other tenant; with insufficient balance it returns ok=false with the
unchanged balance and mutates nothing. -/
theorem c1_debit_conditional_decrement (l : Ledger) (cid : Nat) (amount : Int)
    (hnn : 0 ≤ amount) :
    (amount ≤ l cid →
      (deduct_balance l cid amount).1 = true ∧
      (deduct_balance l cid amount).2.1 = l cid - amount ∧
      (deduct_balance l cid amount).2.2 cid = l cid - amount ∧
      0 ≤ (deduct_balance l cid amount).2.2 cid ∧
      (∀ j, j ≠ cid → (deduct_balance l cid amount).2.2 j = l j)) ∧
    (l cid < amount →
      (deduct_balance l cid amount).1 = false ∧
      (deduct_balance l cid amount).2.1 = l cid ∧
      (deduct_balance l cid amount).2.2 = l) := by
  constructor
  · intro h
    refine ⟨by simp [deduct_fst, h], deduct_snd_of_le l cid amount h, ?_, ?_, ?_⟩
    · rw [deduct_apply_of_le l cid amount h cid, if_pos rfl]
    · rw [deduct_apply_of_le l cid amount h cid, if_pos rfl]
      omega
    · intro j hj
      rw [deduct_apply_of_le l cid amount h j, if_neg hj]
  · intro h
    refine ⟨by simp [deduct_fst]; omega, ?_, deduct_ledger_of_lt l cid amount h⟩
    unfold deduct_balance
    rw [if_neg (not_le.mpr h)]

/-- Witness for C1 at a concrete ledger: balance 1000, amount 75. -/
theorem c1_debit_witness :
    (deduct_balance (fun _ => 1000) 3 75).1 = true ∧
    (deduct_balance (fun _ => 1000) 3 75).2.1 = 925 ∧
    (deduct_balance (fun _ => 1000) 3 75).2.2 3 = 925 :=
  ⟨((c1_debit_conditional_decrement (fun _ => 1000) 3 75 (by decide)).1 (by decide)).1,
   ((c1_debit_conditional_decrement (fun _ => 1000) 3 75 (by decide)).1 (by decide)).2.1,
   ((c1_debit_conditional_decrement (fun _ => 1000) 3 75 (by decide)).1 (by decide)).2.2.1⟩

/-! Regex and router lemmas. -/

/-- Full-string acceptance through iterated derivatives. -/
def reAccepts (r : RE) (s : List Char) : Bool :=
  nullable (s.foldl reDeriv r)

theorem matchAtStart_iff (r : RE) (s : List Char) :
    matchAtStart r s = true ↔ ∃ p q, s = p ++ q ∧ reAccepts r p = true := by
  induction s generalizing r with
  | nil =>
    simp only [matchAtStart]
    constructor
    · intro h
      exact ⟨[], [], rfl, h⟩
    · rintro ⟨p, q, hpq, hacc⟩
      have hp : p = [] := by
        cases p with
        | nil => rfl
        | cons a as => simp at hpq
      subst hp
      simpa [reAccepts] using hacc
  | cons c cs ih =>
    simp only [matchAtStart, Bool.or_eq_true]
    constructor
    · rintro (h | h)
      · exact ⟨[], c :: cs, rfl, h⟩
      · obtain ⟨p, q, hpq, hacc⟩ := (ih (reDeriv r c)).mp h
        exact ⟨c :: p, q, by simp [hpq], by simpa [reAccepts] using hacc⟩
    · rintro ⟨p, q, hpq, hacc⟩
      cases p with
      | nil =>
        left
        simpa [reAccepts] using hacc
      | cons a as =>
        right
        have hac : a = c := by simpa using (congrArg (List.head?) hpq).symm
        have hcs : cs = as ++ q := by
          have := congrArg List.tail hpq
          simpa using this
        subst hac
        exact (ih (reDeriv r a)).mpr ⟨as, q, hcs, by simpa [reAccepts] using hacc⟩

theorem mem_insertRule {a r : RoutingRule} {l : List RoutingRule} :
    a ∈ insertRule r l ↔ a = r ∨ a ∈ l := by
  induction l with
  | nil => simp [insertRule]
  | cons x xs ih =>
    simp only [insertRule]
    split
    · simp only [List.mem_cons, ih]
      tauto
    · simp only [List.mem_cons]

theorem mem_sortRules {a : RoutingRule} {l : List RoutingRule} :
    a ∈ sortRules l ↔ a ∈ l := by
  induction l with
  | nil => simp [sortRules]
  | cons x xs ih => simp [sortRules, mem_insertRule, ih]

theorem sorted_insertRule (r : RoutingRule) (l : List RoutingRule)
    (h : l.Pairwise (fun a b => a.priority ≤ b.priority)) :
    (insertRule r l).Pairwise (fun a b => a.priority ≤ b.priority) := by
  induction l with
  | nil => simp [insertRule]
  | cons x xs ih =>
    rcases List.pairwise_cons.mp h with ⟨hx, hxs⟩
    simp only [insertRule]
    split
    · next hlt =>
      refine List.pairwise_cons.mpr ⟨?_, ih hxs⟩
      intro b hb
      rcases mem_insertRule.mp hb with rfl | hb
      · exact le_of_lt hlt
      · exact hx b hb
    · next hge =>
      have hle : r.priority ≤ x.priority := le_of_not_lt hge
      refine List.pairwise_cons.mpr ⟨?_, h⟩
      intro b hb
      rcases List.mem_cons.mp hb with rfl | hb
      · exact hle
      · exact le_trans hle (hx b hb)

theorem sorted_sortRules (l : List RoutingRule) :
    (sortRules l).Pairwise (fun a b => a.priority ≤ b.priority) := by
  induction l with
  | nil => simp [sortRules]
  | cons x xs ih => exact sorted_insertRule x (sortRules xs) ih

theorem scanRules_eq_none {l : List RoutingRule} {t : String} :
    scanRules l t = none ↔ ∀ r ∈ l, reMatch r.pattern t = false := by
  induction l with
  | nil => simp [scanRules]
  | cons x xs ih =>
    simp only [scanRules]
    by_cases hm : reMatch x.pattern t = true
    · simp [hm]
    · have hm' : reMatch x.pattern t = false := by simpa using hm
      simp [hm', ih]

theorem scanRules_some_min {l : List RoutingRule} {t : String} {a : Account}
    (hs : l.Pairwise (fun x y => x.priority ≤ y.priority))
    (h : scanRules l t = some a) :
    ∃ r ∈ l, reMatch r.pattern t = true ∧ r.account = a ∧
      ∀ q ∈ l, reMatch q.pattern t = true → r.priority ≤ q.priority := by
  induction l with
  | nil => simp [scanRules] at h
  | cons x xs ih =>
    rcases List.pairwise_cons.mp hs with ⟨hx, hxs⟩
    by_cases hm : reMatch x.pattern t = true
    · have hxa : x.account = a := by
        have := h
        simp only [scanRules, hm, if_pos] at this
        simpa using this
      refine ⟨x, by simp, hm, hxa, ?_⟩
      intro q hq _
      rcases List.mem_cons.mp hq with rfl | hq
      · exact le_refl _
      · exact hx q hq
    · have hm' : reMatch x.pattern t = false := by simpa using hm
      have h' : scanRules xs t = some a := by
        simpa [scanRules, hm'] using h
      obtain ⟨r, hr, hrm, hra, hmin⟩ := ih hxs h'
      refine ⟨r, by simp [hr], hrm, hra, ?_⟩
      intro q hq hqm
      rcases List.mem_cons.mp hq with rfl | hq
      · rw [hqm] at hm'
        simp at hm'
      · exact hmin q hq hqm

/-- C4: a forced account on the identity is returned unconditionally; with
no forced account the result is empty exactly when no rule pattern matches
the destination, and any returned account belongs to a matching rule of
minimal priority among all matching rules (ascending-priority first
match); matching itself is the anchored-at-start semantics of re.match:
the pattern accepts some leading segment of the number. -/
theorem c4_router_priority_first_match (rules : List RoutingRule) (t : String) (k : KeyCtx) :
    (∀ a, k.forced_account = some a → get_account_for_number rules t (some k) = some a) ∧
    (k.forced_account = none →
      ((get_account_for_number rules t (some k) = none ↔
          ∀ r ∈ rules, reMatch r.pattern t = false) ∧
       (∀ a, get_account_for_number rules t (some k) = some a →
          ∃ r ∈ rules, reMatch r.pattern t = true ∧ r.account = a ∧
            ∀ q ∈ rules, reMatch q.pattern t = true → r.priority ≤ q.priority))) ∧
    (∀ r : RE, reMatch r t = true ↔ ∃ p q, t.data = p ++ q ∧ reAccepts r p = true) := by
  refine ⟨?_, ?_, ?_⟩
  · intro a ha
    simp [get_account_for_number, ha]
  · intro hnone
    constructor
    · simp only [get_account_for_number, hnone]
      rw [scanRules_eq_none]
      constructor
      · intro h r hr
        exact h r (mem_sortRules.mpr hr)
      · intro h r hr
        exact h r (mem_sortRules.mp hr)
    · intro a ha
      simp only [get_account_for_number, hnone] at ha
      obtain ⟨r, hr, hrm, hra, hmin⟩ := scanRules_some_min (sorted_sortRules rules) ha
      refine ⟨r, mem_sortRules.mp hr, hrm, hra, ?_⟩
      intro q hq hqm
      exact hmin q (mem_sortRules.mpr hq) hqm
  · intro r
    exact matchAtStart_iff r t.data

/-- Witness for C4: with rules [^\+1.* → accA (prio 1), .* → accB (prio
2)] and no forced account, '+15551234567' selects a matching
minimal-priority rule, and keyForced overrides to accB. -/
theorem c4_router_witness :
    get_account_for_number [rulePlusOne, ruleAll] "+15551234567" (some keyForced) = some accB ∧
    ∃ r ∈ [rulePlusOne, ruleAll], reMatch r.pattern "+15551234567" = true ∧ r.account = accA ∧
      ∀ q ∈ [rulePlusOne, ruleAll], reMatch q.pattern "+15551234567" = true →
        r.priority ≤ q.priority :=
  ⟨(c4_router_priority_first_match [rulePlusOne, ruleAll] "+15551234567" keyForced).1 accB rfl,
   (((c4_router_priority_first_match [rulePlusOne, ruleAll] "+15551234567" keyFree).2.1 rfl).2)
     accA (by decide)⟩

/-! Pipeline evaluation lemmas. -/

theorem authOK_some (ep : Endpoint) (cid : Nat) (k : KeyCtx) :
    authOK ep (some cid) (some k) = true := by
  cases ep <;> rfl

theorem relayPost_route_none_eq (ep : Endpoint) (env : Env) (cid : Nat) (k : KeyCtx)
    (req : Req) (dispatch : DispatchCall → DispatchResult)
    (hcap : capOK ep k = true) (hval : validReq ep req = true)
    (hbal : costOf ep ≤ env.ledger cid)
    (hroute : routeLookup ep env.rules k req = none) :
    relayPost ep env (some cid) (some k) req dispatch =
      ({ code := 503, error := some "No Route Found" },
       { env with ledger :=
          (deduct_balance (deduct_balance env.ledger cid (costOf ep)).2.2 cid
            (-(costOf ep))).2.2 }) := by
  have hd : (deduct_balance env.ledger cid (costOf ep)).1 = true := by
    rw [deduct_fst]; exact decide_eq_true hbal
  simp [relayPost, authOK_some, hcap, hval, hd, hroute]

theorem relayPost_dispatch_err_eq (ep : Endpoint) (env : Env) (cid : Nat) (k : KeyCtx)
    (req : Req) (dispatch : DispatchCall → DispatchResult) (acct : Account) (e : String)
    (hcap : capOK ep k = true) (hval : validReq ep req = true)
    (hbal : costOf ep ≤ env.ledger cid)
    (hroute : routeLookup ep env.rules k req = some acct)
    (hdisp : dispatch (dispatchArgs ep req acct) = .err e) :
    relayPost ep env (some cid) (some k) req dispatch =
      ({ code := 500, error := some e },
       { env with ledger :=
          (deduct_balance (deduct_balance env.ledger cid (costOf ep)).2.2 cid
            (-(costOf ep))).2.2 }) := by
  have hd : (deduct_balance env.ledger cid (costOf ep)).1 = true := by
    rw [deduct_fst]; exact decide_eq_true hbal
  simp [relayPost, authOK_some, hcap, hval, hd, hroute, hdisp]

theorem costOf_pos (ep : Endpoint) : 0 < costOf ep := by
  cases ep <;> decide

/-- C2: on every routed send endpoint, when the request is authenticated,
passes the capability gate and the debit, the identity has no forced
account and the Router finds no rule, the response is 503 'No Route Found'
and the compensating credit restores every tenant balance to its
pre-request value. -/
theorem c2_no_route_503_and_refund (ep : Endpoint) (env : Env) (cid : Nat) (k : KeyCtx)
    (req : Req) (dispatch : DispatchCall → DispatchResult)
    (hcap : capOK ep k = true) (hval : validReq ep req = true)
    (hbal : costOf ep ≤ env.ledger cid)
    (hforce : k.forced_account = none)
    (hroute : routeLookup ep env.rules k req = none) :
    (relayPost ep env (some cid) (some k) req dispatch).1.code = 503 ∧
    (relayPost ep env (some cid) (some k) req dispatch).1.error = some "No Route Found" ∧
    ∀ j, (relayPost ep env (some cid) (some k) req dispatch).2.ledger j = env.ledger j := by
  rw [relayPost_route_none_eq ep env cid k req dispatch hcap hval hbal hroute]
  exact ⟨rfl, rfl, fun j => refund_roundtrip env.ledger cid (costOf ep) (costOf_pos ep) hbal j⟩

/-- Witness for C2: an SMS send with no routing rules answers 503 and the
balance is back at 1000. -/
theorem c2_no_route_witness :
    (relayPost .stdSMS envNoRules (some 1) (some keyFree) reqSMS dispatchOK).1.code = 503 ∧
    (relayPost .stdSMS envNoRules (some 1) (some keyFree) reqSMS dispatchOK).2.ledger 1 = 1000 :=
  ⟨(c2_no_route_503_and_refund .stdSMS envNoRules 1 keyFree reqSMS dispatchOK
      (by decide) (by decide) (by decide) (by decide) (by decide)).1,
   ((c2_no_route_503_and_refund .stdSMS envNoRules 1 keyFree reqSMS dispatchOK
      (by decide) (by decide) (by decide) (by decide) (by decide)).2.2 1).trans rfl⟩

/-- C3: on every routed send endpoint, if the dispatch to the Carrier
Gateway raises any failure after a successful debit and route, the request
answers 500 with the error text and the compensating credit restores every
tenant balance to its pre-request value. -/
theorem c3_dispatch_failure_refund (ep : Endpoint) (env : Env) (cid : Nat) (k : KeyCtx)
    (req : Req) (dispatch : DispatchCall → DispatchResult) (acct : Account) (e : String)
    (hcap : capOK ep k = true) (hval : validReq ep req = true)
    (hbal : costOf ep ≤ env.ledger cid)
    (hroute : routeLookup ep env.rules k req = some acct)
    (hdisp : dispatch (dispatchArgs ep req acct) = .err e) :
    (relayPost ep env (some cid) (some k) req dispatch).1.code = 500 ∧
    (relayPost ep env (some cid) (some k) req dispatch).1.error = some e ∧
    ∀ j, (relayPost ep env (some cid) (some k) req dispatch).2.ledger j = env.ledger j := by
  rw [relayPost_dispatch_err_eq ep env cid k req dispatch acct e hcap hval hbal hroute hdisp]
  exact ⟨rfl, rfl, fun j => refund_roundtrip env.ledger cid (costOf ep) (costOf_pos ep) hbal j⟩

/-- Witness for C3: a failing Carrier Gateway turns an SMS send into a 500
with the balance back at 1000. -/
theorem c3_dispatch_failure_witness :
    (relayPost .stdSMS envTwoRules (some 1) (some keyFree) reqSMS dispatchFail).1.code = 500 ∧
    (relayPost .stdSMS envTwoRules (some 1) (some keyFree) reqSMS dispatchFail).2.ledger 1 = 1000 :=
  ⟨(c3_dispatch_failure_refund .stdSMS envTwoRules 1 keyFree reqSMS dispatchFail accA "boom"
      (by decide) (by decide) (by decide) (by decide) (by decide)).1,
   ((c3_dispatch_failure_refund .stdSMS envTwoRules 1 keyFree reqSMS dispatchFail accA "boom"
      (by decide) (by decide) (by decide) (by decide) (by decide)).2.2 1).trans rfl⟩

/-- C5 evidence: no routed send view ever writes a CommunicationLog row —
whatever the endpoint, request, identity or carrier outcome, the log table
after the request is exactly the log table before it (the views never call
LogService.log_communication). -/
theorem c5_no_outcome_record_written (ep : Endpoint) (env : Env) (client_id : Option Nat)
    (api_key : Option KeyCtx) (req : Req) (dispatch : DispatchCall → DispatchResult) :
    (relayPost ep env client_id api_key req dispatch).2.logs = env.logs := by
  unfold relayPost
  dsimp only
  repeat' split <;> try rfl

/-- C6 counterexample: on the Twilio-compatible Messages endpoint a key
whose SMS capability flag is disabled is not rejected with 403 — the
request is debited (1000 → 925) and dispatched (201), because
TwilioMessagesView.post performs no capability check. -/
theorem c6_counterexample_twilio_skips_capability_check :
    keyNoSMS.allow_sms = false ∧
    envTwoRules.ledger 1 = 1000 ∧
    (relayPost .twMessages envTwoRules (some 1) (some keyNoSMS) reqSMS dispatchOK).1.code = 201 ∧
    (relayPost .twMessages envTwoRules (some 1) (some keyNoSMS) reqSMS dispatchOK).2.ledger 1
      = 925 := by
  refine ⟨rfl, rfl, ?_, ?_⟩ <;> decide

/-- C6 (amended to the three simplified endpoints): on /relay/api/sms,
/relay/api/whatsapp and /relay/api/call, an authenticated identity lacking
the capability flag for the endpoint's kind is rejected with 403 before
any debit: every balance and the log table are unchanged. -/
theorem c6_capability_denied_no_debit (ep : Endpoint) (env : Env) (cid : Nat)
    (k : KeyCtx) (req : Req) (dispatch : DispatchCall → DispatchResult)
    (hep : ep = .stdSMS ∨ ep = .stdWhatsApp ∨ ep = .stdCall)
    (hcap : capOK ep k = false) :
    (relayPost ep env (some cid) (some k) req dispatch).1.code = 403 ∧
    (∀ j, (relayPost ep env (some cid) (some k) req dispatch).2.ledger j = env.ledger j) ∧
    (relayPost ep env (some cid) (some k) req dispatch).2.logs = env.logs := by
  rcases hep with rfl | rfl | rfl <;> simp [relayPost, hcap, authOK_some]

/-- Witness for C6 as amended: a key without the SMS flag gets 403 on the
simplified SMS endpoint and the balance stays at 1000. -/
theorem c6_capability_denied_witness :
    (relayPost .stdSMS envTwoRules (some 1) (some keyNoSMS) reqSMS dispatchOK).1.code = 403 ∧
    (relayPost .stdSMS envTwoRules (some 1) (some keyNoSMS) reqSMS dispatchOK).2.ledger 1
      = 1000 :=
  ⟨(c6_capability_denied_no_debit .stdSMS envTwoRules 1 keyNoSMS reqSMS dispatchOK
      (Or.inl rfl) (by decide)).1,
   ((c6_capability_denied_no_debit .stdSMS envTwoRules 1 keyNoSMS reqSMS dispatchOK
      (Or.inl rfl) (by decide)).2.1 1).trans rfl⟩

/-- C10: on the Twilio-compatible Messages and Calls endpoints the routing
call passes no api_key, so for two identities — one carrying a forced
account, one without — the selected account and the entire request outcome
coincide. -/
theorem c10_twilio_route_ignores_forced_account (ep : Endpoint) (env : Env) (cid : Nat)
    (k1 k2 : KeyCtx) (req : Req) (dispatch : DispatchCall → DispatchResult) (a : Account)
    (hep : ep = .twMessages ∨ ep = .twCalls)
    (h1 : k1.forced_account = some a) (h2 : k2.forced_account = none) :
    routeLookup ep env.rules k1 req = routeLookup ep env.rules k2 req ∧
    relayPost ep env (some cid) (some k1) req dispatch =
      relayPost ep env (some cid) (some k2) req dispatch := by
  rcases hep with rfl | rfl <;> exact ⟨rfl, rfl⟩

/-- Witness for C10: keyForced (forced to accB) and keyFree produce the
identical outcome on the Twilio Messages endpoint. -/
theorem c10_twilio_route_witness :
    relayPost .twMessages envTwoRules (some 1) (some keyForced) reqSMS dispatchOK =
      relayPost .twMessages envTwoRules (some 1) (some keyFree) reqSMS dispatchOK :=
  (c10_twilio_route_ignores_forced_account .twMessages envTwoRules 1 keyForced keyFree
    reqSMS dispatchOK accB (Or.inl rfl) rfl rfl).2

/-- C7 evidence: the routed webhook endpoint answers 200 'received' but
leaves the stored rows untouched — the pushed MessageSid/SmsStatus pair is
ignored, although LogService.update_log_status would have set the row to
'sent' (the update WebhookTests.test_webhook_public_access asserts). -/
theorem c7_webhook_ignores_status_push :
    (webhook_post [logQ] [("MessageSid", "SMtestWebhook"), ("SmsStatus", "sent")]).2 = [logQ] ∧
    (webhook_post [logQ] [("MessageSid", "SMtestWebhook"), ("SmsStatus", "sent")]).1.status
      = some "received" ∧
    logQ.status = "queued" ∧
    update_log_status [logQ] "SMtestWebhook" "sent" ""
      = [{ logQ with status := "sent" }] := by
  refine ⟨rfl, rfl, rfl, ?_⟩
  decide

theorem applyResource_status (log : CommLog) (st : String) (ec : Option Nat)
    (em : Option String) (pr : Option Int) :
    (applyResource log st ec em pr).status = st := by
  rcases ec with _ | c <;> rcases pr with _ | p
  · rfl
  · by_cases hp : p ≠ 0 <;> simp [applyResource, hp]
  · by_cases hc : c ≠ 0 <;> simp [applyResource, hc]
  · by_cases hp : p ≠ 0 <;> by_cases hc : c ≠ 0 <;> simp [applyResource, hp, hc]

/-- C8 counterexample: with a Carrier Gateway reporting 'delivered', one
sweep leaves untouched both a queued row with a carrier identifier that is
older than 7 days and a recent queued row whose account reference is null
— the claim's status overwrite does not happen for them. -/
theorem c8_counterexample_sweep_skips_rows :
    sweepEligible 700000 logOld = false ∧
    logNoAcct.account = none ∧
    fetchDelivered "sms" "SMold" = .res "delivered" none none none ∧
    sweep_sync_status fetchDelivered 700000 [logOld, logNoAcct] = [logOld, logNoAcct] ∧
    logOld.status = "queued" ∧
    logNoAcct.status = "queued" := by
  refine ⟨by decide, rfl, rfl, ?_, rfl, rfl⟩
  decide

/-- C8 (amended with the queryset's own conditions): for every row created
within the last 7 days with a non-terminal status, a non-empty carrier
identifier, a non-null carrier account and one of the three communication
kinds, one sweep overwrites its status with the fetched status; a 404 from
the carrier sets the terminal not_found status; and each row of the sweep
is processed independently of every other row's outcome. -/
theorem c8_sweep_overwrites_status (fetch : String → String → FetchResult) (now : Int)
    (logs : List CommLog) (i : Nat) (log : CommLog) (a : Account)
    (hget : logs.get? i = some log)
    (helig : sweepEligible now log = true)
    (hacct : log.account = some a)
    (hkind : log.communication_type = "sms" ∨ log.communication_type = "whatsapp"
      ∨ log.communication_type = "call") :
    (∀ st ec em pr, fetch log.communication_type log.twilio_sid = .res st ec em pr →
      ((sweep_sync_status fetch now logs).get? i).map CommLog.status = some st) ∧
    (fetch log.communication_type log.twilio_sid = .restErr 404 →
      ((sweep_sync_status fetch now logs).get? i).map CommLog.status = some "not_found") ∧
    ((sweep_sync_status fetch now logs).length = logs.length ∧
     ∀ j lj, logs.get? j = some lj →
       (sweep_sync_status fetch now logs).get? j =
         some (if sweepEligible now lj then (sync_status_from_twilio fetch lj).2 else lj)) := by
  have hsid : ¬(log.twilio_sid = "") := by
    have h := helig
    simp only [sweepEligible, Bool.and_eq_true, Bool.not_eq_true', beq_eq_false_iff_ne] at h
    exact h.2
  have hk : (log.communication_type = "sms" || log.communication_type = "whatsapp"
      || log.communication_type = "call") = true := by
    rcases hkind with h | h | h <;> simp [h]
  have hmap : (sweep_sync_status fetch now logs).get? i
      = some ((sync_status_from_twilio fetch log).2) := by
    simp only [sweep_sync_status, List.get?_map, hget, Option.map_some', helig,
      eq_self_iff_true, if_true]
  refine ⟨?_, ?_, ?_, ?_⟩
  · intro st ec em pr hfetch
    rw [hmap]
    have hstat : (sync_status_from_twilio fetch log).2.status = st := by
      unfold sync_status_from_twilio
      rw [if_neg hsid, hacct]
      dsimp only
      rw [if_pos hk, hfetch]
      exact applyResource_status log st ec em pr
    simp [hstat]
  · intro hfetch
    rw [hmap]
    have hstat : (sync_status_from_twilio fetch log).2.status = "not_found" := by
      unfold sync_status_from_twilio
      rw [if_neg hsid, hacct]
      dsimp only
      rw [if_pos hk, hfetch]
      rfl
    simp [hstat]
  · simp [sweep_sync_status]
  · intro j lj hj
    simp only [sweep_sync_status, List.get?_map, hj, Option.map_some']

/-- Witness for C8 as amended: a recent queued SMS row is set to
'delivered' by one sweep. -/
theorem c8_sweep_witness :
    ((sweep_sync_status fetchDelivered 0 [logQ]).get? 0).map CommLog.status
      = some "delivered" :=
  (c8_sweep_overwrites_status fetchDelivered 0 [logQ] 0 logQ accA rfl (by decide) rfl
    (Or.inl rfl)).1 "delivered" none none none rfl

/-- C9: a store miss on a guarded path resolves the key through the
credential store and populates the cache under the digest-derived key
`auth:` + digest(secret) with a 300-second expiry; within the TTL the same
secret is answered from the cache with no store access; at or after expiry
the entry misses and the request falls through to the credential store
again (repopulating the cache). -/
theorem c9_key_validation_cache (digest : String → String) (now : Int) (cache : AuthCache)
    (db : List APIKeyRow) (path : String) (s : String) (k : APIKeyRow)
    (hpath : pyStartsWith path "/relay/" = true)
    (hpath2 : path ≠ "/relay/api/health")
    (hs : s ≠ "")
    (hmiss : cacheGet now cache ("auth:" ++ digest s) = none)
    (hdb : validate_api_key digest db s = some k) :
    process_view digest now cache db path (some s) =
      ⟨.authed k.client_id (toCacheVal k),
       ⟨"auth:" ++ digest s, toCacheVal k, now + 300⟩ :: cache, true⟩ ∧
    (∀ t, t < now + 300 →
      process_view digest t (⟨"auth:" ++ digest s, toCacheVal k, now + 300⟩ :: cache)
          db path (some s) =
        ⟨.authed k.client_id (toCacheVal k),
         ⟨"auth:" ++ digest s, toCacheVal k, now + 300⟩ :: cache, false⟩) ∧
    (∀ t, now + 300 ≤ t → cacheGet t cache ("auth:" ++ digest s) = none →
      process_view digest t (⟨"auth:" ++ digest s, toCacheVal k, now + 300⟩ :: cache)
          db path (some s) =
        ⟨.authed k.client_id (toCacheVal k),
         ⟨"auth:" ++ digest s, toCacheVal k, t + 300⟩ ::
           ⟨"auth:" ++ digest s, toCacheVal k, now + 300⟩ :: cache, true⟩) := by
  have hg1 : (pyStartsWith path "/relay/" || pyStartsWith path "/2010-04-01/") = true := by
    simp [hpath]
  have hg2 : (path == "/relay/api/health") = false := beq_eq_false_iff_ne.mpr hpath2
  have hsb : (s == "") = false := beq_eq_false_iff_ne.mpr hs
  have hcv : ∀ q : APIKeyRow, (toCacheVal q).client_id = q.client_id := fun _ => rfl
  refine ⟨?_, ?_, ?_⟩
  · simp [process_view, hg1, hg2, hsb, hmiss, hdb]
  · intro t ht
    have hhit : cacheGet t (⟨"auth:" ++ digest s, toCacheVal k, now + 300⟩ :: cache)
        ("auth:" ++ digest s) = some (toCacheVal k) := by
      simp [cacheGet, ht]
    simp [process_view, hg1, hg2, hsb, hhit, hcv]
  · intro t ht hmiss2
    have hf : ¬(t < now + 300) := not_lt.mpr ht
    have hnone : cacheGet t (⟨"auth:" ++ digest s, toCacheVal k, now + 300⟩ :: cache)
        ("auth:" ++ digest s) = none := by
      unfold cacheGet at hmiss2 ⊢
      rw [List.find?_cons_of_neg]
      · exact hmiss2
      · simp [hf]
    simp [process_view, hg1, hg2, hsb, hnone, hdb]

/-- Witness for C9: one concrete run through miss, hit before expiry, and
miss after expiry. -/
theorem c9_key_validation_cache_witness :
    process_view dgt 0 [] dbW "/relay/api/sms" (some "secret") =
      ⟨.authed 42 (toCacheVal keyRowW),
       ⟨"auth:" ++ dgt "secret", toCacheVal keyRowW, 300⟩ :: [], true⟩ ∧
    process_view dgt 100 [⟨"auth:" ++ dgt "secret", toCacheVal keyRowW, 300⟩]
        dbW "/relay/api/sms" (some "secret") =
      ⟨.authed 42 (toCacheVal keyRowW),
       [⟨"auth:" ++ dgt "secret", toCacheVal keyRowW, 300⟩], false⟩ ∧
    process_view dgt 300 [⟨"auth:" ++ dgt "secret", toCacheVal keyRowW, 300⟩]
        dbW "/relay/api/sms" (some "secret") =
      ⟨.authed 42 (toCacheVal keyRowW),
       [⟨"auth:" ++ dgt "secret", toCacheVal keyRowW, 600⟩,
        ⟨"auth:" ++ dgt "secret", toCacheVal keyRowW, 300⟩], true⟩ := by
  have h := c9_key_validation_cache dgt 0 [] dbW "/relay/api/sms" "secret" keyRowW
    (by decide) (by decide) (by decide) (by decide) (by decide)
  refine ⟨h.1, ?_, ?_⟩
  · have h2 := h.2.1 100 (by decide)
    simpa using h2
  · have h3 := h.2.2 300 (by decide) (by decide)
    simpa using h3
